import Mathlib

/-!
Verification of the FolderSmartSync metadata-diff and synchronization engine
(`smart_folder.py`, class `SmartFolder`).

The embedding models:
* a sqlite row of the per-folder table as `FileRecord` (columns path, name,
  size, mtime); inventories are lists of rows;
* the four planning queries (`_get_renames`, `_get_copies`,
  `_get_deletes_target`, `_get_moves` move and delete passes) as list
  comprehensions faithful to the SQL `WHERE` clauses, producing `SyncOp`s whose
  paths record the `os.path.join` calls of the Python code: an `AbsPath` is the
  folder-location argument of the outermost join plus the joined relative part;
* the filesystem as a list of entries (directory components, name, kind, size,
  mtime); `populate_db` as the `glob.iglob('**/*', recursive=True)` walk
  (glob skips components starting with '.') filtered by `os.path.isfile`;
* execution (`shutil.move`, `shutil.copy2`, `os.remove`, guarded by
  `self.debug`) as partial state transformers on a two-folder `World`;
* the sqlite commit discipline of `populate_db` (DELETE + commit before the
  walk, executemany + commit after it) as a fold over store operations.
-/

namespace FolderSmartSync

/-- One row of the per-folder sqlite table: columns `path` (directory part
relative to the folder root, `"."` for the root itself), `name`, `size`,
`mtime`.  `mtime` is modelled as an integer timestamp; the code only ever
compares mtimes for equality. -/
structure FileRecord where
  path : String
  name : String
  size : Nat
  mtime : Int
deriving DecidableEq, Repr

/-- A full filesystem path as built by the Python code: the folder location
(first argument of the outermost `os.path.join`) plus the joined relative
part. -/
structure AbsPath where
  root : String
  rel : String
deriving DecidableEq, Repr

/-- A planned synchronization operation. -/
inductive SyncOp where
  | rename : AbsPath → AbsPath → SyncOp
  | copy : AbsPath → AbsPath → SyncOp
  | delete : AbsPath → SyncOp
  | move : AbsPath → AbsPath → SyncOp
deriving DecidableEq, Repr

/-- The `if row[path] == '.' then join(loc, name) else join(loc, path, name)`
branching that every planning loop performs, without the location. -/
def relPath (p n : String) : String :=
  if p = "." then n else p ++ "/" ++ n

/-- `(r.size, r.mtime) IN (SELECT size, mtime FROM inv)`.  All rows inserted by
`populate_db` carry a non-null mtime, so the SQL `IN` / `NOT IN` are plain
boolean membership and negation. -/
def keyIn (r : FileRecord) (inv : List FileRecord) : Bool :=
  inv.any fun t => r.size == t.size && r.mtime == t.mtime

/-- `_get_renames`: the cross join of the source and target tables restricted
by `src.size=tgt.size AND src.mtime=tgt.mtime AND src.path<>tgt.path`.
Each row yields a rename of the target's current path into the path implied
by the source row, both joined onto `target.location`. -/
def getRenames (tgtLoc : String) (src tgt : List FileRecord) : List SyncOp :=
  src.flatMap fun s =>
    (tgt.filter fun t =>
        s.size == t.size && s.mtime == t.mtime && s.path != t.path).map
      fun t =>
        SyncOp.rename ⟨tgtLoc, relPath t.path t.name⟩ ⟨tgtLoc, relPath s.path s.name⟩

/-- `_get_copies`: source rows whose `(size, mtime)` is `NOT IN` the target
table, copied from `self.location` to `target.location` at the same relative
path. -/
def getCopies (srcLoc tgtLoc : String) (src tgt : List FileRecord) : List SyncOp :=
  (src.filter fun s => !keyIn s tgt).map fun s =>
    SyncOp.copy ⟨srcLoc, relPath s.path s.name⟩ ⟨tgtLoc, relPath s.path s.name⟩

/-- `_get_deletes_target`: target rows whose `(size, mtime)` is `NOT IN` the
source table.  NOTE, faithful to the code: the path removed is joined onto
`self.location` — the SOURCE folder — and in the root branch the code joins
`row['target_path']` (the string `"."`) rather than the file name. -/
def getDeletesTarget (srcLoc : String) (src tgt : List FileRecord) : List SyncOp :=
  (tgt.filter fun t => !keyIn t src).map fun t =>
    SyncOp.delete
      (if t.path = "." then ⟨srcLoc, t.path⟩ else ⟨srcLoc, t.path ++ "/" ++ t.name⟩)

/-- First query of `_get_moves`: source rows whose `(size, mtime)` is
`NOT IN` the target table are moved to the equivalent path under
`target.location`. -/
def getMoves (srcLoc tgtLoc : String) (src tgt : List FileRecord) : List SyncOp :=
  (src.filter fun s => !keyIn s tgt).map fun s =>
    SyncOp.move ⟨srcLoc, relPath s.path s.name⟩ ⟨tgtLoc, relPath s.path s.name⟩

/-- Second query of `_get_moves`: source rows whose `(size, mtime)` `IS IN`
the target table are removed from `self.location` (the source folder). -/
def getMoveDeletes (srcLoc : String) (src tgt : List FileRecord) : List SyncOp :=
  (src.filter fun s => keyIn s tgt).map fun s =>
    SyncOp.delete ⟨srcLoc, relPath s.path s.name⟩

/-- Kind of a filesystem entry: a regular file, a directory, a symlink whose
resolved target is a regular file, or a symlink whose resolved target is a
directory. -/
inductive EntryKind where
  | file
  | dir
  | symlinkToFile
  | symlinkToDir
deriving DecidableEq, Repr

/-- `os.path.isfile`: the call follows symlinks, so it accepts a regular file
and also a symlink that resolves to a regular file. -/
def isfile : EntryKind → Bool
  | EntryKind.file => true
  | EntryKind.symlinkToFile => true
  | EntryKind.dir => false
  | EntryKind.symlinkToDir => false

/-- One filesystem entry the `glob` walk visits under a folder root: the
directory components from the root, the entry name, its kind, and the size
and mtime of its resolved target (`os.path.getsize` / `os.path.getmtime`
follow symlinks, so for a symlink these are the stat of the target). -/
structure FsEntry where
  dirs : List String
  name : String
  kind : EntryKind
  size : Nat
  mtime : Int
deriving DecidableEq, Repr

/-- Whether a path component begins with `'.'` (the test `glob` applies to
decide that an entry is hidden), written on the character list so the kernel
can evaluate it. -/
def dotFirst (s : String) : Bool :=
  match s.data with
  | [] => false
  | c :: _ => c == '.'

/-- `glob` with default settings skips any entry whose name, or any directory
component on the way to it, starts with a dot. -/
def hiddenEntry (e : FsEntry) : Bool :=
  e.dirs.any dotFirst || dotFirst e.name

/-- `os.path.relpath(os.path.dirname(f), root)`: the directory components
joined with `/`, or `"."` for a file directly under the root. -/
def relDir (dirs : List String) : String :=
  if dirs = [] then "." else String.intercalate "/" dirs

/-- The sqlite row `populate_db` builds for one regular file. -/
def recordOf (e : FsEntry) : FileRecord :=
  ⟨relDir e.dirs, e.name, e.size, e.mtime⟩

/-- The walk of `populate_db`: `glob.iglob(join(location, '**', '*'),
recursive=True)` (which skips dot entries) filtered by `os.path.isfile`
(which follows symlinks), each match contributing one row. -/
def populate_db (fs : List FsEntry) : List FileRecord :=
  (fs.filter fun e => !hiddenEntry e && isfile e.kind).map recordOf

/-- The two directory trees a synchronization run works on: the entries under
the source folder root and under the target folder root. -/
structure World where
  srcFs : List FsEntry
  tgtFs : List FsEntry
deriving DecidableEq, Repr

/-- The relative path string of an entry, as the planner would join it. -/
def entryRel (e : FsEntry) : String :=
  relPath (relDir e.dirs) e.name

/-- Look up the non-directory entry (regular file or symlink resolving to
one) at a relative path inside one tree. -/
def findFile (fs : List FsEntry) (r : String) : Option FsEntry :=
  fs.find? fun e => entryRel e == r && isfile e.kind

/-- `os.remove`: drop the non-directory entry at the given relative path. -/
def removeFile (fs : List FsEntry) (r : String) : List FsEntry :=
  fs.filter fun e => !(entryRel e == r && isfile e.kind)

/-- Split a joined relative path back into its slash-separated components,
written on the character list so the kernel can evaluate it; on the paths the
planner builds it agrees with `String.splitOn "/"`. -/
def splitSlash (s : String) : List String :=
  go s.data []
where
  go : List Char → List Char → List String
    | [], acc => [String.mk acc.reverse]
    | c :: rest, acc =>
        if c == '/' then String.mk acc.reverse :: go rest []
        else go rest (c :: acc)

/-- The entry created by writing a file at a joined relative path,
recovering the directory components from the slashes. -/
def mkFileEntry (r : String) (size : Nat) (mtime : Int) : FsEntry :=
  let parts := splitSlash r
  ⟨parts.dropLast, parts.getLastD "", EntryKind.file, size, mtime⟩

/-- Create or overwrite the file at a relative path, preserving size and
mtime of the written data (`shutil.copy2` and `shutil.move` both preserve
the stat metadata). -/
def writeFile (fs : List FsEntry) (r : String) (size : Nat) (mtime : Int) : List FsEntry :=
  removeFile fs r ++ [mkFileEntry r size mtime]

/-- Select the tree a path's root refers to: `self.location` is the source
folder, anything else in a plan is `target.location`. -/
def getFs (srcLoc : String) (w : World) (root : String) : List FsEntry :=
  if root = srcLoc then w.srcFs else w.tgtFs

/-- Replace the tree a path's root refers to. -/
def setFs (srcLoc : String) (w : World) (root : String) (fs : List FsEntry) : World :=
  if root = srcLoc then { w with srcFs := fs } else { w with tgtFs := fs }

/-- `shutil.move f t`: fails if the file at `f` is gone, otherwise removes it
and writes its data at `t` (overwriting any file already there). -/
def execMoveLike (srcLoc : String) (w : World) (f t : AbsPath) : Option World :=
  match findFile (getFs srcLoc w f.root) f.rel with
  | none => none
  | some e =>
      let w1 := setFs srcLoc w f.root (removeFile (getFs srcLoc w f.root) f.rel)
      some (setFs srcLoc w1 t.root (writeFile (getFs srcLoc w1 t.root) t.rel e.size e.mtime))

/-- Execute one operation on the two trees; `none` models the Python
exception when the file an operation needs is missing. -/
def execOp (srcLoc : String) (w : World) : SyncOp → Option World
  | SyncOp.rename f t => execMoveLike srcLoc w f t
  | SyncOp.move f t => execMoveLike srcLoc w f t
  | SyncOp.copy f t =>
      match findFile (getFs srcLoc w f.root) f.rel with
      | none => none
      | some e =>
          some (setFs srcLoc w t.root (writeFile (getFs srcLoc w t.root) t.rel e.size e.mtime))
  | SyncOp.delete p =>
      match findFile (getFs srcLoc w p.root) p.rel with
      | none => none
      | some _ => some (setFs srcLoc w p.root (removeFile (getFs srcLoc w p.root) p.rel))

/-- Execute a plan in order; a failure aborts the rest of the batch (the
Python exception propagates out of `sync_to`). -/
def execPlan (srcLoc : String) (ops : List SyncOp) (w : World) : Option World :=
  ops.foldl (fun ow op => ow.bind fun v => execOp srcLoc v op) (some w)

/-- The full mirror-mode plan of `sync_to`: both inventories are rebuilt by
`populate_db`, then renames, copies and target-deletes are queried in that
order from the unchanged tables. -/
def mirrorPlan (srcLoc tgtLoc : String) (w : World) : List SyncOp :=
  let src := populate_db w.srcFs
  let tgt := populate_db w.tgtFs
  getRenames tgtLoc src tgt ++ getCopies srcLoc tgtLoc src tgt
    ++ getDeletesTarget srcLoc src tgt

/-- The full move-mode plan of `sync_to`: moves then source-side deletes. -/
def movePlan (srcLoc tgtLoc : String) (w : World) : List SyncOp :=
  let src := populate_db w.srcFs
  let tgt := populate_db w.tgtFs
  getMoves srcLoc tgtLoc src tgt ++ getMoveDeletes srcLoc src tgt

/-- `sync_to(target, MODE_SMART_MIRROR)`: returns the planned operations and
the resulting trees; with `debug = true` every `if not self.debug` guard
skips the filesystem call, so the trees are untouched. -/
def syncMirror (srcLoc tgtLoc : String) (debug : Bool) (w : World) :
    List SyncOp × Option World :=
  let plan := mirrorPlan srcLoc tgtLoc w
  (plan, if debug then some w else execPlan srcLoc plan w)

/-- `sync_to(target, MODE_MOVE)`: planned operations and resulting trees. -/
def syncMove (srcLoc tgtLoc : String) (debug : Bool) (w : World) :
    List SyncOp × Option World :=
  let plan := movePlan srcLoc tgtLoc w
  (plan, if debug then some w else execPlan srcLoc plan w)

/-- The construction-time state of a `SmartFolder`: its location and the
`debug` flag (`self.debug = True` at the end of `__init__`). -/
structure SmartFolder where
  location : String
  debug : Bool
deriving DecidableEq, Repr

/-- `SmartFolder.__init__`: the dry-run ("debug") flag starts as `True`. -/
def mkSmartFolder (loc : String) : SmartFolder :=
  ⟨loc, true⟩

/-- `set_debug_mode`. -/
def set_debug_mode (f : SmartFolder) (m : Bool) : SmartFolder :=
  { f with debug := m }

/-- State of the per-folder sqlite table: the rows of the open transaction
and the rows a concurrent reader would see (the committed ones). -/
structure StoreState where
  current : List FileRecord
  committed : List FileRecord
deriving DecidableEq, Repr

/-- The statements `populate_db` issues against the store. -/
inductive StoreOp where
  | deleteAll : StoreOp
  | insertMany : List FileRecord → StoreOp
  | commit : StoreOp
deriving DecidableEq, Repr

/-- Effect of one statement on the table state. -/
def applyStore (st : StoreState) : StoreOp → StoreState
  | StoreOp.deleteAll => { st with current := [] }
  | StoreOp.insertMany rs => { st with current := st.current ++ rs }
  | StoreOp.commit => { st with committed := st.current }

/-- Whether the `glob` walk of `populate_db` runs to completion or raises
partway through. -/
inductive WalkOutcome where
  | ok : WalkOutcome
  | failed : WalkOutcome
deriving DecidableEq, Repr

/-- The statement sequence of `populate_db`, in source order: `DELETE FROM`
then `commit()` BEFORE the walk; only if the walk completes, `executemany` of
the full scan followed by the final `commit()`. -/
def populateStoreOps (fs : List FsEntry) : WalkOutcome → List StoreOp
  | WalkOutcome.failed => [StoreOp.deleteAll, StoreOp.commit]
  | WalkOutcome.ok =>
      [StoreOp.deleteAll, StoreOp.commit,
       StoreOp.insertMany (populate_db fs), StoreOp.commit]

/-- Run `populate_db` against a table whose committed inventory is `prev`. -/
def runPopulate (prev : List FileRecord) (fs : List FsEntry) (w : WalkOutcome) :
    StoreState :=
  (populateStoreOps fs w).foldl applyStore ⟨prev, prev⟩

/-- Source folder `"A"` holding `d/b` (size 1, mtime 10) and target folder
`"B"` holding `d/b` (size 7, mtime 200): the two files share a name and
relative path but not a match key. -/
def twinWorld : World :=
  ⟨[⟨["d"], "b", EntryKind.file, 1, 10⟩], [⟨["d"], "b", EntryKind.file, 7, 200⟩]⟩

/-- C1: the claim says the mirror delete pass removes the matched file under
the TARGET folder root and touches nothing under the source root.  The code
joins the path onto `self.location` — the source folder: for source `"A"`
containing `d/c` (1, 10) and target `"B"` containing `d/b` (7, 200), the
planned delete is `A/d/b`, a path under the source root, and no operation
under the target root `"B"` is planned. -/
theorem C1_delete_path_is_under_source_root :
    getDeletesTarget "A" [⟨"d", "c", 1, 10⟩] [⟨"d", "b", 7, 200⟩]
      = [SyncOp.delete ⟨"A", "d/b"⟩] := by
  decide

/-- C2 counterexample: source row `d/x` and target row `d/y` share size 5 and
mtime 100 and differ in identity (the name), yet `_get_renames` — whose SQL
only tests `src.path<>tgt.path` — emits no rename, contradicting the claim
that name-only pairs get a rename from `B/d/y` to `B/d/x`. -/
theorem C2_name_only_pair_gets_no_rename :
    getRenames "B" [⟨"d", "x", 5, 100⟩] [⟨"d", "y", 5, 100⟩] = []
      ∧ SyncOp.rename ⟨"B", "d/y"⟩ ⟨"B", "d/x"⟩
          ∉ getRenames "B" [⟨"d", "x", 5, 100⟩] [⟨"d", "y", 5, 100⟩] := by
  decide

/-- C3 counterexample: two source rows `a/x` and `b/y` and one target row
`c/z`, all with key (5, 100).  The cross join emits TWO renames whose
from-path is the same target file `B/c/z`, contradicting "at most one rename
targeting any single target file". -/
theorem C3_two_renames_from_same_target_file :
    getRenames "B" [⟨"a", "x", 5, 100⟩, ⟨"b", "y", 5, 100⟩] [⟨"c", "z", 5, 100⟩]
      = [SyncOp.rename ⟨"B", "c/z"⟩ ⟨"B", "a/x"⟩,
         SyncOp.rename ⟨"B", "c/z"⟩ ⟨"B", "b/y"⟩] := by
  decide

/-- C4: on `twinWorld`, the first non-dry mirror run copies `A/d/b` over
`B/d/b` and then — because `_get_deletes_target` builds its path under
`self.location` — removes `A/d/b` from the SOURCE tree.  Rebuilding the
inventories on the resulting trees, the second run still plans one delete
(again of `A/d/b`), so the second run's plan is not empty and mirror
synchronization is not idempotent. -/
theorem C4_second_mirror_run_plans_a_delete :
    (syncMirror "A" "B" false twinWorld).2
        = some ⟨[], [⟨["d"], "b", EntryKind.file, 1, 10⟩]⟩
      ∧ mirrorPlan "A" "B" ⟨[], [⟨["d"], "b", EntryKind.file, 1, 10⟩]⟩
          = [SyncOp.delete ⟨"A", "d/b"⟩] := by
  decide

/-- C5 counterexample, refuting both halves of the claim's "exactly the
regular files": a hidden regular file `.hidden` (size 5, mtime 100) directly
under the root yields NO FileRecord, because `glob.iglob` skips dot entries,
although the claim says every regular file including hidden dot-files yields
one; and a symlink `d/s` resolving to a regular file (target stat size 5,
mtime 100) DOES yield a FileRecord, because `os.path.isfile` follows
symlinks, although the claim says symlinks yield none. -/
theorem C5_hidden_file_skipped_and_symlink_recorded :
    populate_db [⟨[], ".hidden", EntryKind.file, 5, 100⟩] = []
      ∧ populate_db [⟨["d"], "s", EntryKind.symlinkToFile, 5, 100⟩]
          = [⟨"d", "s", 5, 100⟩] := by
  decide

/-- C6 counterexample: on `twinWorld`, move-mode relocates `A/d/b` (1, 10)
onto `B/d/b`, overwriting the target file `d/b` (7, 200) that existed before
the pass — so a file already present in the target tree is altered,
contradicting "every target file that existed before the pass is unchanged
afterwards". -/
theorem C6_move_pass_overwrites_target_file :
    (syncMove "A" "B" false twinWorld).2
        = some ⟨[], [⟨["d"], "b", EntryKind.file, 1, 10⟩]⟩
      ∧ FsEntry.mk ["d"] "b" EntryKind.file 7 200 ∈ twinWorld.tgtFs
      ∧ FsEntry.mk ["d"] "b" EntryKind.file 7 200
          ∉ [FsEntry.mk ["d"] "b" EntryKind.file 1 10] := by
  decide

/-- C8: source `a/x.txt` (size 10, mtime 100) and target `b/x.txt` (same key,
different relative path): one mirror planning pass emits exactly the rename
of `B/b/x.txt` into `B/a/x.txt` and neither a copy nor a delete. -/
theorem C8_rename_not_copy_delete :
    mirrorPlan "A" "B"
        ⟨[⟨["a"], "x.txt", EntryKind.file, 10, 100⟩],
         [⟨["b"], "x.txt", EntryKind.file, 10, 100⟩]⟩
      = [SyncOp.rename ⟨"B", "b/x.txt"⟩ ⟨"B", "a/x.txt"⟩] := by
  decide

/-- C9 counterexample: with a committed inventory of one row, a walk that
fails partway leaves the committed table EMPTY, not the previous inventory:
the `DELETE FROM` and its `commit()` run before the walk starts. -/
theorem C9_failed_walk_loses_previous_inventory :
    (runPopulate [⟨"d", "b", 7, 200⟩] [⟨["d"], "b", EntryKind.file, 1, 10⟩]
        WalkOutcome.failed).committed = []
      ∧ ([] : List FileRecord) ≠ [⟨"d", "b", 7, 200⟩] := by
  decide

/-- C2 (amended): a rename is emitted exactly for the pairs of one source row
and one target row with equal match key and DIFFERING `path` column (relative
dir); pairs differing only in `name` are not selected by the SQL.  The rename
goes from the target row's current path to the path under the target root
implied by the source row, both joined onto the target location. -/
theorem C2_rename_iff_relative_dir_differs (tgtLoc : String)
    (src tgt : List FileRecord) (op : SyncOp) :
    op ∈ getRenames tgtLoc src tgt ↔
      ∃ s ∈ src, ∃ t ∈ tgt,
        s.size = t.size ∧ s.mtime = t.mtime ∧ s.path ≠ t.path ∧
        op = SyncOp.rename ⟨tgtLoc, relPath t.path t.name⟩
              ⟨tgtLoc, relPath s.path s.name⟩ := by
  simp only [getRenames, List.mem_flatMap, List.mem_map, List.mem_filter,
    Bool.and_eq_true, beq_iff_eq, bne_iff_ne]
  constructor
  · rintro ⟨s, hs, t, ⟨ht, ⟨h1, h2⟩, h3⟩, rfl⟩
    exact ⟨s, hs, t, ht, h1, h2, h3, rfl⟩
  · rintro ⟨s, hs, t, ht, h1, h2, h3, rfl⟩
    exact ⟨s, hs, t, ⟨ht, ⟨h1, h2⟩, h3⟩, rfl⟩

/-- C3 (amended): with two source rows and one target row all sharing one
match key, planning is a total function (it cannot fail) and emits no copy
and no delete; it emits one rename per source row whose `path` differs from
the target row's `path` — in particular, when both source paths differ, two
renames are emitted and both have the single target file as from-path, and a
source row whose `path` equals the target's receives no decision at all. -/
theorem C3_ambiguous_pair_decisions (sloc tloc : String) (s1 s2 t : FileRecord)
    (h1 : s1.size = t.size) (h2 : s1.mtime = t.mtime)
    (h3 : s2.size = t.size) (h4 : s2.mtime = t.mtime) :
    getRenames tloc [s1, s2] [t]
        = (if s1.path = t.path then []
           else [SyncOp.rename ⟨tloc, relPath t.path t.name⟩
                  ⟨tloc, relPath s1.path s1.name⟩])
          ++ (if s2.path = t.path then []
              else [SyncOp.rename ⟨tloc, relPath t.path t.name⟩
                     ⟨tloc, relPath s2.path s2.name⟩])
      ∧ getCopies sloc tloc [s1, s2] [t] = []
      ∧ getDeletesTarget sloc [s1, s2] [t] = [] := by
  refine ⟨?_, ?_, ?_⟩
  · by_cases c1 : s1.path = t.path <;> by_cases c2 : s2.path = t.path <;>
      simp [getRenames, h1, h2, h3, h4, c1, c2]
  · simp [getCopies, keyIn, h1, h2, h3, h4]
  · simp [getDeletesTarget, keyIn, ← h1, ← h2]

theorem C3_ambiguous_pair_decisions_witness :
    getRenames "B" [⟨"a", "x", 5, 100⟩, ⟨"b", "y", 5, 100⟩] [⟨"c", "z", 5, 100⟩]
        = (if ("a" : String) = "c" then []
           else [SyncOp.rename ⟨"B", relPath "c" "z"⟩ ⟨"B", relPath "a" "x"⟩])
          ++ (if ("b" : String) = "c" then []
              else [SyncOp.rename ⟨"B", relPath "c" "z"⟩ ⟨"B", relPath "b" "y"⟩])
      ∧ getCopies "A" "B" [⟨"a", "x", 5, 100⟩, ⟨"b", "y", 5, 100⟩]
          [⟨"c", "z", 5, 100⟩] = []
      ∧ getDeletesTarget "A" [⟨"a", "x", 5, 100⟩, ⟨"b", "y", 5, 100⟩]
          [⟨"c", "z", 5, 100⟩] = [] :=
  C3_ambiguous_pair_decisions "A" "B" ⟨"a", "x", 5, 100⟩ ⟨"b", "y", 5, 100⟩
    ⟨"c", "z", 5, 100⟩ rfl rfl rfl rfl

/-- C5 (amended): the inventory build enumerates exactly the non-hidden
entries that `os.path.isfile` accepts — regular files AND symlinks resolving
to regular files, none of whose path components starts with a dot.  Each
such entry yields one FileRecord (root-relative dir, and the size and mtime
of the resolved target); hidden entries, directories and symlinks to
directories yield none, and an empty tree yields an empty inventory. -/
theorem C5_populate_enumerates_visible_isfile_entries (fs : List FsEntry) :
    populate_db ([] : List FsEntry) = []
      ∧ (populate_db fs).length
          = (fs.filter fun e => !hiddenEntry e && isfile e.kind).length
      ∧ (∀ e ∈ fs, isfile e.kind = true → hiddenEntry e = false →
          recordOf e ∈ populate_db fs)
      ∧ (∀ r ∈ populate_db fs, ∃ e ∈ fs,
          isfile e.kind = true ∧ hiddenEntry e = false ∧ r = recordOf e) := by
  refine ⟨rfl, by simp [populate_db], ?_, ?_⟩
  · intro e he hk hh
    refine List.mem_map.mpr ⟨e, List.mem_filter.mpr ⟨he, ?_⟩, rfl⟩
    simp [hh, hk]
  · intro r hr
    rcases List.mem_map.mp hr with ⟨e, hef, rfl⟩
    rcases List.mem_filter.mp hef with ⟨he, hp⟩
    simp only [Bool.and_eq_true, Bool.not_eq_true'] at hp
    exact ⟨e, he, hp.2, hp.1, rfl⟩

theorem C5_populate_enumerates_visible_isfile_entries_witness :
    recordOf ⟨["d"], "s", EntryKind.symlinkToFile, 3, 7⟩
      ∈ populate_db [⟨["d"], "s", EntryKind.symlinkToFile, 3, 7⟩] :=
  (C5_populate_enumerates_visible_isfile_entries
      [⟨["d"], "s", EntryKind.symlinkToFile, 3, 7⟩]).2.2.1
    ⟨["d"], "s", EntryKind.symlinkToFile, 3, 7⟩ (by decide) rfl (by decide)

/-- C6 (amended): every operation a move-mode plan contains is either a Move
whose from-path is under the source root and whose destination is under the
target root, or a Delete whose path is under the source root; no delete or
rename of a target-tree path is ever planned (a Move may still overwrite the
target file at its destination). -/
theorem C6_move_plan_touches_only_source_paths (sloc tloc : String) (w : World)
    (op : SyncOp) (h : op ∈ movePlan sloc tloc w) :
    (∃ f t, op = SyncOp.move f t ∧ f.root = sloc ∧ t.root = tloc)
      ∨ (∃ p, op = SyncOp.delete p ∧ p.root = sloc) := by
  simp only [movePlan, getMoves, getMoveDeletes] at h
  rcases List.mem_append.mp h with h' | h'
  · rcases List.mem_map.mp h' with ⟨s, _, rfl⟩
    exact Or.inl ⟨_, _, rfl, rfl, rfl⟩
  · rcases List.mem_map.mp h' with ⟨s, _, rfl⟩
    exact Or.inr ⟨_, rfl, rfl⟩

theorem C6_move_plan_touches_only_source_paths_witness :
    (∃ f t, SyncOp.move ⟨"A", "d/b"⟩ ⟨"B", "d/b"⟩ = SyncOp.move f t
        ∧ f.root = "A" ∧ t.root = "B")
      ∨ (∃ p, SyncOp.move ⟨"A", "d/b"⟩ ⟨"B", "d/b"⟩ = SyncOp.delete p
          ∧ p.root = "A") :=
  C6_move_plan_touches_only_source_paths "A" "B" twinWorld _ (by decide)

/-- C7: the debug (dry-run) flag is `true` at construction; with it enabled
neither sync mode changes either tree, whatever was planned; the plan is the
same function of the two trees whether or not debug is set, and a non-dry
run executes exactly that plan. -/
theorem C7_debug_defaults_true_and_dry_run_is_noop
    (loc sloc tloc : String) (w : World) :
    (mkSmartFolder loc).debug = true
      ∧ (syncMirror sloc tloc true w).2 = some w
      ∧ (syncMove sloc tloc true w).2 = some w
      ∧ (syncMirror sloc tloc true w).1 = (syncMirror sloc tloc false w).1
      ∧ (syncMove sloc tloc true w).1 = (syncMove sloc tloc false w).1
      ∧ (syncMirror sloc tloc false w).2 = execPlan sloc (mirrorPlan sloc tloc w) w
      ∧ (syncMove sloc tloc false w).2 = execPlan sloc (movePlan sloc tloc w) w :=
  ⟨rfl, rfl, rfl, rfl, rfl, rfl, rfl⟩

/-- C9 (amended): on a failed walk no scanned record is committed, but the
previously stored inventory is not preserved either — the `DELETE FROM` and
its commit run before the walk, so the committed table ends up empty; on a
completed walk the committed table is exactly the full scan. -/
theorem C9_populate_commit_discipline (prev : List FileRecord) (fs : List FsEntry) :
    (runPopulate prev fs WalkOutcome.failed).committed = []
      ∧ (runPopulate prev fs WalkOutcome.ok).committed = populate_db fs :=
  ⟨rfl, rfl⟩

/-- C10: the two `_get_moves` queries are the images of complementary filters
of the source inventory — a row is moved exactly when its match key is absent
from the target inventory and delete-selected exactly when it is present —
so each source row is selected by exactly one pass and none is skipped or
duplicated (every row carries a non-null key in this model, as every row
`populate_db` inserts does). -/
theorem C10_move_mode_partitions_source (sloc tloc : String)
    (src tgt : List FileRecord) :
    getMoves sloc tloc src tgt
        = ((src.filter fun r => !keyIn r tgt).map fun s =>
            SyncOp.move ⟨sloc, relPath s.path s.name⟩ ⟨tloc, relPath s.path s.name⟩)
      ∧ getMoveDeletes sloc src tgt
          = ((src.filter fun r => keyIn r tgt).map fun s =>
              SyncOp.delete ⟨sloc, relPath s.path s.name⟩)
      ∧ ((src.filter fun r => !keyIn r tgt) ++ src.filter fun r => keyIn r tgt).Perm src
      ∧ (∀ s ∈ src,
          (s ∈ src.filter fun r => !keyIn r tgt)
            ↔ ¬ s ∈ src.filter fun r => keyIn r tgt)
      ∧ (getMoves sloc tloc src tgt).length + (getMoveDeletes sloc src tgt).length
          = src.length := by
  have hperm :
      ((src.filter fun r => !keyIn r tgt) ++ src.filter fun r => keyIn r tgt).Perm src := by
    have hbase := List.filter_append_perm (fun r => keyIn r tgt) src
    exact List.perm_append_comm.trans hbase
  refine ⟨rfl, rfl, hperm, ?_, ?_⟩
  · intro s hs
    simp [List.mem_filter, hs]
  · have hlen := hperm.length_eq
    simpa [getMoves, getMoveDeletes] using hlen

theorem C10_move_mode_partitions_source_witness :
    ((⟨"d", "x", 3, 7⟩ : FileRecord)
        ∈ ([⟨"d", "x", 3, 7⟩] : List FileRecord).filter fun r => !keyIn r [])
      ↔ ¬ (⟨"d", "x", 3, 7⟩ : FileRecord)
          ∈ ([⟨"d", "x", 3, 7⟩] : List FileRecord).filter fun r => keyIn r [] :=
  (C10_move_mode_partitions_source "A" "B" [⟨"d", "x", 3, 7⟩] []).2.2.2.1
    ⟨"d", "x", 3, 7⟩ (by decide)

end FolderSmartSync
